import Mathlib

/-!
Shallow embedding of the BPF stack-trace map (kernel/bpf/stackmap.c) and of
the BPF trace dispatch layer (kernel/trace/bpf_trace.c), together with
theorems checking the specification's claims against the embedded code.

Machine integers are modelled as Nat with explicit truncation where the C
code truncates; fallible operations return Except or a result structure
carrying the returned errno.  External collaborators (the callchain
capture, the hash function over the captured frames, the memory allocator,
the fault-tolerant string read) are passed in as explicit parameters, so
each embedded function is a pure function of its inputs.
-/

deriving instance DecidableEq for Except

-- Linux errno values used by the embedded sources (from the errno headers;
-- returned to callers negated, as in the C code).
def EPERM : Int := 1

def ENOENT : Int := 2

def E2BIG : Int := 7

def ENOMEM : Int := 12

def EFAULT : Int := 14

def EEXIST : Int := 17

def EINVAL : Int := 22

def EOPNOTSUPP : Int := 95

/-- Modelled from the spec: flag bits of the stack-capture helper call
(a skip-frame count field, a user-stack bit, a fast-compare bit and a
reuse-on-collision bit); the uapi header defining the BPF_F_* constants is
not part of this excerpt.  The low byte is the skip count. -/
def BPF_F_SKIP_FIELD_MASK : Nat := 255

def BPF_F_USER_STACK : Nat := 256

def BPF_F_FAST_STACK_CMP : Nat := 512

def BPF_F_REUSE_STACKID : Nat := 1024

/-- Union of all flag bits accepted by bpf_get_stackid (stackmap.c:97-98). -/
def stackidAllowedFlags : Nat :=
  BPF_F_SKIP_FIELD_MASK ||| BPF_F_USER_STACK ||| BPF_F_FAST_STACK_CMP |||
    BPF_F_REUSE_STACKID

/-- Modelled from the spec: the platform frame-depth ceiling
(PERF_MAX_STACK_DEPTH in the perf headers, not part of this excerpt). -/
def PERF_MAX_STACK_DEPTH : Nat := 127

def PAGE_SIZE : Nat := 4096

def U32_MAX : Nat := 2 ^ 32 - 1

/-- All bits of a 64-bit word; `U64_ALL - m` is the C complement `~m` on u64. -/
def U64_ALL : Nat := 2 ^ 64 - 1

/-- struct stack_map_bucket (stackmap.c:14-19).  `ip` is the bucket's full
value buffer: `value_size / 8` u64 frame slots, zero-padded past `nr`. -/
structure stack_map_bucket where
  hash : Nat
  nr : Nat
  ip : List Nat
deriving DecidableEq

/-- struct bpf_stack_map (stackmap.c:21-25): bucket array plus the map
attributes the embedded operations read (n_buckets, value_size). -/
structure bpf_stack_map where
  n_buckets : Nat
  value_size : Nat
  buckets : List (Option stack_map_bucket)
deriving DecidableEq

/-- Well-formedness established by stack_map_alloc: the bucket array has
n_buckets slots and n_buckets is a power of two (stackmap.c:44-45, 67). -/
def bpf_stack_map.WF (m : bpf_stack_map) : Prop :=
  m.buckets.length = m.n_buckets ∧ ∃ k, m.n_buckets = 2 ^ k

/-- Base-2 logarithm with explicit fuel, so that it is structurally
recursive and computes by kernel reduction; with fuel ≥ n it agrees with
Nat.log2 (see log2fuel_eq_log2). -/
def log2fuel : Nat → Nat → Nat
  | 0, _ => 0
  | fuel + 1, n => if 2 ≤ n then log2fuel fuel (n / 2) + 1 else 0

/-- Kernel roundup_pow_of_two: the smallest power of two that is ≥ n
(for n ≥ 1; computed in the kernel as 1 << fls(n - 1)). -/
def roundup_pow_of_two (n : Nat) : Nat :=
  if n ≤ 1 then 1 else 2 ^ (log2fuel (n - 1) (n - 1) + 1)

/-- union bpf_attr fields read by stack_map_alloc (stackmap.c:28-45). -/
structure bpf_attr where
  key_size : Nat
  value_size : Nat
  max_entries : Nat
deriving DecidableEq

/-- stack_map_alloc (stackmap.c:28-79).  External inputs are explicit
parameters: `capAdmin` is capable(CAP_SYS_ADMIN); `hdr` and `bucketHdr` are
sizeof(struct bpf_stack_map) and sizeof(struct stack_map_bucket), which are
layout constants; `allocOk` tells whether kzalloc/vzalloc succeeds;
`callchainErr` is the result of get_callchain_buffers (none = success).
On success the returned map has n_buckets = roundup_pow_of_two max_entries
and an all-empty bucket array (kzalloc zeroes the struct). -/
def stack_map_alloc (capAdmin : Bool) (hdr bucketHdr : Nat) (allocOk : Bool)
    (callchainErr : Option Int) (attr : bpf_attr) : Except Int bpf_stack_map :=
  if ¬ capAdmin then .error (-EPERM)
  else if attr.max_entries = 0 ∨ attr.key_size ≠ 4 ∨ attr.value_size < 8 ∨
      attr.value_size % 8 ≠ 0 ∨ attr.value_size / 8 > PERF_MAX_STACK_DEPTH then
    .error (-EINVAL)
  else
    let n_buckets := roundup_pow_of_two attr.max_entries
    let cost := n_buckets * 8 + hdr
    if cost ≥ U32_MAX - PAGE_SIZE then .error (-E2BIG)
    else if ¬ allocOk then .error (-ENOMEM)
    else
      let cost2 := cost + n_buckets * (attr.value_size + bucketHdr)
      if cost2 ≥ U32_MAX - PAGE_SIZE then .error (-E2BIG)
      else
        match callchainErr with
        | some e => .error e
        | none => .ok ⟨n_buckets, attr.value_size, List.replicate n_buckets none⟩

/-- Result of bpf_get_stackid: the returned value (bucket id ≥ 0 or negative
errno), the map state after the call, whether a new bucket was allocated
(the kmalloc at stackmap.c:135), and the old bucket handed to kfree_rcu for
deferred destruction, if any (stackmap.c:146-147). -/
structure stackid_result where
  ret : Int
  smap : bpf_stack_map
  allocated : Bool
  freed : Option stack_map_bucket
deriving DecidableEq

/-- bpf_get_stackid (stackmap.c:81-149).  External inputs are parameters:
`hashFn` is jhash2 over the frame bytes (its u32 result is modelled by
truncating mod 2^32); `allocOk` tells whether the kmalloc of a new bucket
succeeds; `trace` is the result of get_perf_callchain, reduced to the list
of captured frames (none = capture failed; get_perf_callchain guarantees
the list has at most value_size / 8 frames). -/
def bpf_get_stackid (hashFn : List Nat → Nat) (allocOk : Bool)
    (smap : bpf_stack_map) (flags : Nat) (trace : Option (List Nat)) :
    stackid_result :=
  let max_depth := smap.value_size / 8
  let skip := flags &&& BPF_F_SKIP_FIELD_MASK
  if flags &&& (U64_ALL - stackidAllowedFlags) ≠ 0 then
    ⟨-EINVAL, smap, false, none⟩
  else
    match trace with
    | none => ⟨-EFAULT, smap, false, none⟩
    | some tr =>
      if tr.length ≤ skip then ⟨-EFAULT, smap, false, none⟩
      else
        let ips := tr.drop skip
        let trace_nr := tr.length - skip
        let hash := hashFn ips % 2 ^ 32
        let id := hash &&& (smap.n_buckets - 1)
        let bucket := smap.buckets.getD id none
        let matched : Bool :=
          match bucket with
          | some b =>
            b.hash == hash &&
              (flags &&& BPF_F_FAST_STACK_CMP != 0 ||
                (b.nr == trace_nr && b.ip.take trace_nr == ips))
          | none => false
        if matched then ⟨Int.ofNat id, smap, false, none⟩
        else if bucket.isSome && flags &&& BPF_F_REUSE_STACKID == 0 then
          ⟨-EEXIST, smap, false, none⟩
        else if ¬ allocOk then ⟨-ENOMEM, smap, false, none⟩
        else
          let new_bucket : stack_map_bucket :=
            ⟨hash, trace_nr, ips ++ List.replicate (max_depth - trace_nr) 0⟩
          ⟨Int.ofNat id, { smap with buckets := smap.buckets.set id (some new_bucket) },
            true, bucket⟩

/-- stack_map_lookup_elem (stackmap.c:161-171): bound-check the index, then
return the bucket's value buffer (bucket->ip) or NULL (none).  An
out-of-range index and an empty bucket both produce NULL. -/
def stack_map_lookup_elem (smap : bpf_stack_map) (key : Nat) :
    Option (List Nat) :=
  if key ≥ smap.n_buckets then none
  else
    match smap.buckets.getD key none with
    | some b => some b.ip
    | none => none

/-- stack_map_get_next_key (stackmap.c:173-176): unconditional -EINVAL. -/
def stack_map_get_next_key (_smap : bpf_stack_map) (_key : Nat) : Int :=
  -EINVAL

-- Return protocol of trace_call_bpf, from its documentation comment
-- (bpf_trace.c:26-30): 0 means the kprobe event is filtered out (not
-- recorded); 1 means the kprobe event is stored into the ring buffer.
def TRACE_RET_FILTERED : Nat := 0

def TRACE_RET_STORE : Nat := 1

/-- Result of trace_call_bpf: returned value, the per-cpu bpf_prog_active
counter after the call returns, and whether the attached-program array was
executed (the BPF_PROG_RUN_ARRAY_CHECK at bpf_trace.c:67). -/
structure dispatch_result where
  ret : Nat
  active : Nat
  ran : Bool
deriving DecidableEq

/-- trace_call_bpf (bpf_trace.c:32-74).  `isNmi` is in_nmi(); `active0` is
this cpu's bpf_prog_active counter on entry; `progResult` is the value of
BPF_PROG_RUN_ARRAY_CHECK (external).  The counter is incremented on entry
and decremented on the shared exit path, so the model records the counter
value the function leaves behind. -/
def trace_call_bpf (isNmi : Bool) (active0 : Nat) (progResult : Nat) :
    dispatch_result :=
  if isNmi then ⟨1, active0, false⟩
  else if active0 + 1 ≠ 1 then ⟨0, active0 + 1 - 1, false⟩
  else ⟨progResult, active0 + 1 - 1, true⟩

/-- Modelled from the spec: perf event type/config constants from the perf
uapi headers (not part of this excerpt); the raw-payload-accepting kind is
the software event configured as BPF output. -/
def PERF_TYPE_SOFTWARE : Nat := 1

def PERF_COUNT_SW_BPF_OUTPUT : Nat := 10

/-- The fields of struct perf_event that bpf_perf_event_output reads
(bpf_trace.c:266-273): the declared kind and the owning cpu. -/
structure perf_event where
  attr_type : Nat
  attr_config : Nat
  oncpu : Nat
deriving DecidableEq

/-- struct bpf_array as used by bpf_perf_event_output: max_entries and the
per-slot target.  A slot holds the perf event reached through the stored
struct file's private_data; an unoccupied slot (NULL file) is none. -/
structure bpf_array where
  max_entries : Nat
  ptrs : List (Option perf_event)
deriving DecidableEq

/-- Result of bpf_perf_event_output: returned value and the payload handed
to perf_event_output (the external sink), if any. -/
structure perf_output_result where
  ret : Int
  emitted : Option (List Nat)
deriving DecidableEq

/-- bpf_perf_event_output (bpf_trace.c:245-279).  `cur_cpu` is
smp_processor_id(); `data`/`size` form the raw payload.  The payload is
handed to perf_event_output only after every check passes. -/
def bpf_perf_event_output (cur_cpu : Nat) (arr : bpf_array) (index : Nat)
    (data : List Nat) : perf_output_result :=
  if index ≥ arr.max_entries then ⟨-E2BIG, none⟩
  else
    match arr.ptrs.getD index none with
    | none => ⟨-ENOENT, none⟩
    | some event =>
      if event.attr_type ≠ PERF_TYPE_SOFTWARE ∨
          event.attr_config ≠ PERF_COUNT_SW_BPF_OUTPUT then ⟨-EINVAL, none⟩
      else if event.oncpu ≠ cur_cpu then ⟨-EOPNOTSUPP, none⟩
      else ⟨0, some data⟩

-- Kernel ctype predicates for byte values, as used by bpf_trace_printk
-- (bpf_trace.c:119, 137-138); the format bytes are checked to be ASCII.
def isasciiB (c : Nat) : Bool := c ≤ 127

def isprintB (c : Nat) : Bool := 32 ≤ c && c ≤ 126

def isspaceB (c : Nat) : Bool := c == 32 || (9 ≤ c && c ≤ 13)

def ispunctB (c : Nat) : Bool :=
  (33 ≤ c && c ≤ 47) || (58 ≤ c && c ≤ 64) || (91 ≤ c && c ≤ 96) ||
    (123 ≤ c && c ≤ 126)

/-- An argument as finally handed to the renderer __trace_printk: either a
number, or the local 64-byte string buffer filled for a %s argument. -/
inductive printkArg where
  | num (v : Nat)
  | str (s : List Nat)
deriving DecidableEq

/-- sizeof(buf) in bpf_trace_printk (bpf_trace.c:106): the fixed local
buffer a %s argument is copied into. -/
def printkBufSize : Nat := 64

/-- Modelled from the spec: strncpy_from_unsafe (the SafeMemoryProbe string
read, external to this excerpt) copies a possibly-invalid address into the
64-byte local buffer.  The buffer's first byte is cleared beforehand
(bpf_trace.c:161), so a failed read leaves the empty string; a successful
read is bounded by the buffer size (63 content bytes plus terminator).
`rs` maps an address to the string stored there, none if unreadable. -/
def readBuf (rs : Nat → Option (List Nat)) (a : printkArg) : List Nat :=
  match a with
  | .num addr =>
    match rs addr with
    | none => []
    | some s => s.take (printkBufSize - 1)
  | .str _ => []

/-- The format-scanning loop of bpf_trace_printk (bpf_trace.c:118-177).
`rest` is the format suffix still to scan, always ending with the NUL
terminator in real calls; the loop stops when only the terminator is left.
State: fmt_cnt, str_seen, the three width counters mod[0..2] and the three
argument slots r3/r4/r5 (replaced by the string buffer for a %s).  Returns
-EINVAL exactly where the C loop does, else the final widths and args. -/
def printkLoop (rs : Nat → Option (List Nat)) (rest : List Nat)
    (fmt_cnt : Nat) (str_seen : Bool) (m0 m1 m2 : Nat)
    (a0 a1 a2 : printkArg) :
    Except Int (Nat × Nat × Nat × printkArg × printkArg × printkArg) :=
  match rest with
  | [] => .ok (m0, m1, m2, a0, a1, a2)
  | [_] => .ok (m0, m1, m2, a0, a1, a2)
  | c :: c1 :: rest2 =>
    if ¬ ((isprintB c || isspaceB c) && isasciiB c) then .error (-EINVAL)
    else if c ≠ 37 then printkLoop rs (c1 :: rest2) fmt_cnt str_seen m0 m1 m2 a0 a1 a2
    else if fmt_cnt ≥ 3 then .error (-EINVAL)
    else if c1 = 108 then
      -- '%l': bump the width, then accept a second 'l' and require d/u/x
      match rest2 with
      | [] => .error (-EINVAL)
      | c2 :: rest3 =>
        if c2 = 108 then
          match rest3 with
          | [] => .error (-EINVAL)
          | c3 :: rest4 =>
            if c3 = 100 ∨ c3 = 117 ∨ c3 = 120 then
              match fmt_cnt with
              | 0 => printkLoop rs rest4 1 str_seen (m0 + 2) m1 m2 a0 a1 a2
              | 1 => printkLoop rs rest4 2 str_seen m0 (m1 + 2) m2 a0 a1 a2
              | _ => printkLoop rs rest4 3 str_seen m0 m1 (m2 + 2) a0 a1 a2
            else .error (-EINVAL)
        else if c2 = 100 ∨ c2 = 117 ∨ c2 = 120 then
          match fmt_cnt with
          | 0 => printkLoop rs rest3 1 str_seen (m0 + 1) m1 m2 a0 a1 a2
          | 1 => printkLoop rs rest3 2 str_seen m0 (m1 + 1) m2 a0 a1 a2
          | _ => printkLoop rs rest3 3 str_seen m0 m1 (m2 + 1) a0 a1 a2
        else .error (-EINVAL)
    else if c1 = 112 ∨ c1 = 115 then
      -- '%p' or '%s': bump the width, check the trailing byte, and for %s
      -- redirect the argument through the bounded fault-tolerant read
      if rest2.headD 0 ≠ 0 ∧ ¬ isspaceB (rest2.headD 0) ∧
          ¬ ispunctB (rest2.headD 0) then .error (-EINVAL)
      else if c1 = 115 then
        if str_seen then .error (-EINVAL)
        else
          match fmt_cnt with
          | 0 => printkLoop rs rest2 1 true (m0 + 1) m1 m2 (.str (readBuf rs a0)) a1 a2
          | 1 => printkLoop rs rest2 2 true m0 (m1 + 1) m2 a0 (.str (readBuf rs a1)) a2
          | _ => printkLoop rs rest2 3 true m0 m1 (m2 + 1) a0 a1 (.str (readBuf rs a2))
      else
        match fmt_cnt with
        | 0 => printkLoop rs rest2 1 str_seen (m0 + 1) m1 m2 a0 a1 a2
        | 1 => printkLoop rs rest2 2 str_seen m0 (m1 + 1) m2 a0 a1 a2
        | _ => printkLoop rs rest2 3 str_seen m0 m1 (m2 + 1) a0 a1 a2
    else if c1 = 100 ∨ c1 = 117 ∨ c1 = 120 then
      match fmt_cnt with
      | 0 => printkLoop rs rest2 1 str_seen m0 m1 m2 a0 a1 a2
      | 1 => printkLoop rs rest2 2 str_seen m0 m1 m2 a0 a1 a2
      | _ => printkLoop rs rest2 3 str_seen m0 m1 m2 a0 a1 a2
    else .error (-EINVAL)

/-- The final width adjustment at the __trace_printk call site
(bpf_trace.c:180-182): width 2 and 1 pass the full value (u64 and long are
both 64-bit here), width 0 truncates to u32; a %s argument carries the
string buffer. -/
def truncArg (m : Nat) (a : printkArg) : printkArg :=
  match a with
  | .str s => .str s
  | .num v => if m = 2 then .num v else if m = 1 then .num v else .num (v % 2 ^ 32)

/-- bpf_trace_printk (bpf_trace.c:99-183).  `fmt` is the format buffer of
length fmt_size (the verifier guarantees fmt_size > 0); the last byte must
be the NUL terminator.  On success, returns the three arguments as handed
to the external renderer __trace_printk. -/
def bpf_trace_printk (rs : Nat → Option (List Nat)) (fmt : List Nat)
    (r3 r4 r5 : Nat) : Except Int (printkArg × printkArg × printkArg) :=
  if fmt.getLastD 1 ≠ 0 then .error (-EINVAL)
  else
    match printkLoop rs fmt 0 false 0 0 0 (.num r3) (.num r4) (.num r5) with
    | .error e => .error e
    | .ok (m0, m1, m2, b0, b1, b2) =>
      .ok (truncArg m0 b0, truncArg m1 b1, truncArg m2 b2)

/-- A reader for which every address is unreadable: every fault-tolerant
string read fails. -/
def rsFail : Nat → Option (List Nat) := fun _ => none

/-- Relation between an argument rendered under some reader and the same
argument rendered when every read faults: numbers agree, and a string
argument degrades to the empty string while always fitting the 64-byte
buffer. -/
def printkArgRelB : printkArg → printkArg → Bool
  | .num v, .num w => v == w
  | .str s, .str t => t == [] && s.length < printkBufSize
  | _, _ => false

/-- Relation between whole printkLoop results under some reader and under
the all-faulting reader: identical errors, identical widths, related
arguments. -/
def printkOutRelB :
    Except Int (Nat × Nat × Nat × printkArg × printkArg × printkArg) →
    Except Int (Nat × Nat × Nat × printkArg × printkArg × printkArg) → Bool
  | .error e, .error f => e == f
  | .ok (m0, m1, m2, a0, a1, a2), .ok (n0, n1, n2, b0, b1, b2) =>
    m0 == n0 && m1 == n1 && m2 == n2 && printkArgRelB a0 b0 &&
      printkArgRelB a1 b1 && printkArgRelB a2 b2
  | _, _ => false

-- Concrete fixtures used by the witness and counterexample theorems.

/-- A map with four buckets, all empty (value_size 8, max_depth 1). -/
def cexMap4 : bpf_stack_map := ⟨4, 8, [none, none, none, none]⟩

/-- A single-bucket map (n_buckets = 1 = 2^0) whose bucket holds the trace
[7] (value_size 16, so the stored buffer is [7, 0]). -/
def cexMap1 : bpf_stack_map := ⟨1, 16, [some ⟨0, 1, [7, 0]⟩]⟩

/-- The constant-zero hash function, used to force bucket collisions in
witnesses. -/
def hashZero : List Nat → Nat := fun _ => 0

/-- A reader with the two-byte string "hi" stored at address 5 and every
other address unreadable. -/
def rsHiAt5 : Nat → Option (List Nat) :=
  fun a => if a = 5 then some [104, 105] else none

/-- The format string "%s" with its NUL terminator, as a byte list. -/
def fmtPctS : List Nat := [37, 115, 0]

/-! ## Theorems -/

/-- Claim C9: the ordered-enumeration operation of the stack-trace store
(stack_map_get_next_key) fails unconditionally, for every map and every
input key, with the unsupported-iteration error, which the code renders as
-EINVAL (stackmap.c:173-176). -/
theorem stack_map_get_next_key_unsupported (m : bpf_stack_map) (key : Nat) :
    stack_map_get_next_key m key = -EINVAL := rfl

/-- Claim C8 (counterexample): invoked from a non-maskable-interrupt
context, trace_call_bpf returns 1, which the function's own documentation
defines as "store kprobe event into ring buffer" — not the "event is
filtered out / not recorded" value 0.  The claim's statement that the
returned value is the inert "event not recorded" result is false. -/
theorem trace_call_bpf_nmi_counterexample :
    (trace_call_bpf true 0 7).ret = TRACE_RET_STORE ∧
      (trace_call_bpf true 0 7).ret ≠ TRACE_RET_FILTERED := by decide

/-- Claim C8 (amended): when invoked from a non-maskable-interrupt context,
trace_call_bpf returns immediately without touching the reentrancy guard
and without running any attached program, and it returns 1, the value that
tells the kprobe handler to store the event into the ring buffer (the
unfiltered pass-through), not the filtered / "event not recorded" value. -/
theorem trace_call_bpf_nmi_spec (active0 progResult : Nat) :
    trace_call_bpf true active0 progResult =
      ⟨TRACE_RET_STORE, active0, false⟩ := rfl

/-- Claim C3 (counterexample): the guard being already active does not by
itself force the filtered outcome: fired from a non-maskable-interrupt
context with the guard active (count 1), trace_call_bpf returns 1, not the
filtered value 0, because the in_nmi() early return precedes the guard
check (bpf_trace.c:36-37). -/
theorem trace_call_bpf_guard_counterexample :
    (trace_call_bpf true 1 7).ran = false ∧
      (trace_call_bpf true 1 7).ret ≠ TRACE_RET_FILTERED := by decide

/-- Claim C3 (amended): on every exit path — the NMI path, the filtered
path and the program-run path with any program result — the per-cpu guard
counter is restored to its entry value before trace_call_bpf returns; and
when the dispatcher is not on the NMI path and the guard is already active
(counter at least 1), no attached program runs and the returned value is
the filtered outcome 0. -/
theorem trace_call_bpf_guard_spec (isNmi : Bool) (active0 progResult : Nat) :
    (trace_call_bpf isNmi active0 progResult).active = active0 ∧
      (1 ≤ active0 →
        (trace_call_bpf false active0 progResult).ret = TRACE_RET_FILTERED ∧
          (trace_call_bpf false active0 progResult).ran = false) := by
  constructor
  · cases isNmi
    · by_cases h : active0 = 0 <;> simp [trace_call_bpf, h]
    · simp [trace_call_bpf]
  · intro h
    have h1 : active0 + 1 ≠ 1 := by omega
    simp [trace_call_bpf, h1, TRACE_RET_FILTERED]

/-- Witness for the amended claim C3 at a concrete input: guard counter 1,
program result 7. -/
theorem trace_call_bpf_guard_spec_witness :
    (trace_call_bpf false 1 7).active = 1 ∧
      ((trace_call_bpf false 1 7).ret = TRACE_RET_FILTERED ∧
        (trace_call_bpf false 1 7).ran = false) :=
  ⟨(trace_call_bpf_guard_spec false 1 7).1,
    (trace_call_bpf_guard_spec false 1 7).2 (by decide)⟩

/-- Claim C4 (counterexample): the lookup does not produce a distinct
out-of-range error.  On a map with four buckets, the out-of-range index 7
yields exactly the same NULL result as the in-range empty bucket 0
(stackmap.c:167-170 return NULL in both cases; only delete distinguishes
-E2BIG from -ENOENT). -/
theorem stack_map_lookup_oob_counterexample :
    stack_map_lookup_elem cexMap4 7 = none ∧
      stack_map_lookup_elem cexMap4 7 = stack_map_lookup_elem cexMap4 0 := by
  decide

/-- Claim C4 (amended): lookup fails, returning NULL (read as NotFound),
both for every index ≥ bucket_count and for every in-range empty bucket —
the out-of-range failure is not a distinct error — and for an occupied
bucket it returns the stored entry's full padded frame buffer
(bucket->ip). -/
theorem stack_map_lookup_spec (m : bpf_stack_map) (key : Nat) :
    (m.n_buckets ≤ key → stack_map_lookup_elem m key = none) ∧
      (key < m.n_buckets → m.buckets.getD key none = none →
        stack_map_lookup_elem m key = none) ∧
      (∀ b, key < m.n_buckets → m.buckets.getD key none = some b →
        stack_map_lookup_elem m key = some b.ip) := by
  refine ⟨fun h => ?_, fun h he => ?_, fun b h hb => ?_⟩
  · simp [stack_map_lookup_elem, h]
  · rw [List.getD_eq_getElem?_getD] at he
    simp [stack_map_lookup_elem, Nat.not_le.mpr h, he]
  · rw [List.getD_eq_getElem?_getD] at hb
    simp [stack_map_lookup_elem, Nat.not_le.mpr h, hb]

/-- Witness for the amended claim C4: on the four-bucket map extended with
one occupied bucket, index 9 is out of range, index 0 is empty, and
index 1 returns the stored padded buffer. -/
theorem stack_map_lookup_spec_witness :
    (stack_map_lookup_elem ⟨4, 16, [none, some ⟨3, 1, [7, 0]⟩, none, none]⟩ 9 = none) ∧
      (stack_map_lookup_elem ⟨4, 16, [none, some ⟨3, 1, [7, 0]⟩, none, none]⟩ 0 = none) ∧
      (stack_map_lookup_elem ⟨4, 16, [none, some ⟨3, 1, [7, 0]⟩, none, none]⟩ 1 =
        some [7, 0]) :=
  ⟨(stack_map_lookup_spec ⟨4, 16, [none, some ⟨3, 1, [7, 0]⟩, none, none]⟩ 9).1
      (by decide),
    (stack_map_lookup_spec ⟨4, 16, [none, some ⟨3, 1, [7, 0]⟩, none, none]⟩ 0).2.1
      (by decide) (by decide),
    (stack_map_lookup_spec ⟨4, 16, [none, some ⟨3, 1, [7, 0]⟩, none, none]⟩ 1).2.2
      ⟨3, 1, [7, 0]⟩ (by decide) (by decide)⟩

/-- Claim C10: any flags value with a bit set outside the skip-count mask,
the user-stack bit, the fast-compare bit and the reuse-on-collision bit
makes bpf_get_stackid fail with -EINVAL before the trace is consulted and
without touching any bucket: the result is the same for every trace input
(including a failed capture) and carries the unchanged map, no allocation
and no deferred free (stackmap.c:97-99). -/
theorem bpf_get_stackid_bad_flags (hashFn : List Nat → Nat) (allocOk : Bool)
    (smap : bpf_stack_map) (flags : Nat) (trace : Option (List Nat))
    (h : flags &&& (U64_ALL - stackidAllowedFlags) ≠ 0) :
    bpf_get_stackid hashFn allocOk smap flags trace =
      ⟨-EINVAL, smap, false, none⟩ := by
  simp [bpf_get_stackid, h]

/-- Witness for claim C10 at the concrete flags value 2048 (bit 11, the
lowest bit outside the accepted mask), with a successfully captured
trace. -/
theorem bpf_get_stackid_bad_flags_witness :
    bpf_get_stackid hashZero true cexMap1 2048 (some [9]) =
      ⟨-EINVAL, cexMap1, false, none⟩ :=
  bpf_get_stackid_bad_flags hashZero true cexMap1 2048 (some [9]) (by decide)

/-- Claim C5: bpf_perf_event_output fails with -ENOENT (NotFound) when the
in-range target slot is unoccupied, with -EINVAL (the mismatched-kind /
unsupported-producer rejection) when the target's declared kind is not the
software BPF-output kind, and with -EOPNOTSUPP (wrong execution context)
when the current cpu differs from the cpu owning the target; the payload is
handed to the external sink exactly when every check passes, in which case
the call returns 0 (bpf_trace.c:259-278). -/
theorem bpf_perf_event_output_checks (cpu : Nat) (arr : bpf_array)
    (index : Nat) (data : List Nat) (hidx : index < arr.max_entries) :
    (arr.ptrs.getD index none = none →
        bpf_perf_event_output cpu arr index data = ⟨-ENOENT, none⟩) ∧
      (∀ event, arr.ptrs.getD index none = some event →
          event.attr_type ≠ PERF_TYPE_SOFTWARE ∨
            event.attr_config ≠ PERF_COUNT_SW_BPF_OUTPUT →
          bpf_perf_event_output cpu arr index data = ⟨-EINVAL, none⟩) ∧
      (∀ event, arr.ptrs.getD index none = some event →
          event.attr_type = PERF_TYPE_SOFTWARE →
          event.attr_config = PERF_COUNT_SW_BPF_OUTPUT →
          event.oncpu ≠ cpu →
          bpf_perf_event_output cpu arr index data = ⟨-EOPNOTSUPP, none⟩) ∧
      (∀ event, arr.ptrs.getD index none = some event →
          event.attr_type = PERF_TYPE_SOFTWARE →
          event.attr_config = PERF_COUNT_SW_BPF_OUTPUT →
          event.oncpu = cpu →
          bpf_perf_event_output cpu arr index data = ⟨0, some data⟩) := by
  have hn : ¬ index ≥ arr.max_entries := Nat.not_le.mpr hidx
  refine ⟨fun he => ?_, fun event he hk => ?_, fun event he ht hc ho => ?_,
    fun event he ht hc ho => ?_⟩ <;> rw [List.getD_eq_getElem?_getD] at he
  · simp [bpf_perf_event_output, hn, he]
  · rcases hk with hk | hk <;> simp [bpf_perf_event_output, hn, he, hk]
  · simp [bpf_perf_event_output, hn, he, ht, hc, ho]
  · simp [bpf_perf_event_output, hn, he, ht, hc, ho]

/-- Witness for claim C5: a two-slot array whose slot 0 is unoccupied and
whose slot 1 holds a software BPF-output event owned by cpu 2; each failure
and the success are exercised at concrete inputs. -/
theorem bpf_perf_event_output_checks_witness :
    bpf_perf_event_output 2 ⟨2, [none, some ⟨1, 10, 2⟩]⟩ 0 [42] = ⟨-ENOENT, none⟩ ∧
      bpf_perf_event_output 2 ⟨2, [none, some ⟨0, 10, 2⟩]⟩ 1 [42] = ⟨-EINVAL, none⟩ ∧
      bpf_perf_event_output 3 ⟨2, [none, some ⟨1, 10, 2⟩]⟩ 1 [42] = ⟨-EOPNOTSUPP, none⟩ ∧
      bpf_perf_event_output 2 ⟨2, [none, some ⟨1, 10, 2⟩]⟩ 1 [42] = ⟨0, some [42]⟩ :=
  ⟨(bpf_perf_event_output_checks 2 ⟨2, [none, some ⟨1, 10, 2⟩]⟩ 0 [42]
        (by decide)).1 (by decide),
    (bpf_perf_event_output_checks 2 ⟨2, [none, some ⟨0, 10, 2⟩]⟩ 1 [42]
        (by decide)).2.1 ⟨0, 10, 2⟩ (by decide) (by decide),
    (bpf_perf_event_output_checks 3 ⟨2, [none, some ⟨1, 10, 2⟩]⟩ 1 [42]
        (by decide)).2.2.1 ⟨1, 10, 2⟩ (by decide) (by decide) (by decide) (by decide),
    (bpf_perf_event_output_checks 2 ⟨2, [none, some ⟨1, 10, 2⟩]⟩ 1 [42]
        (by decide)).2.2.2 ⟨1, 10, 2⟩ (by decide) (by decide) (by decide) (by decide)⟩

/-- With enough fuel, the structural log2 agrees with Nat.log2. -/
theorem log2fuel_eq_log2 : ∀ (fuel n : Nat), n ≤ fuel →
    log2fuel fuel n = Nat.log2 n := by
  intro fuel
  induction fuel with
  | zero =>
    intro n h
    have h0 : n = 0 := Nat.le_zero.mp h
    subst h0
    rw [Nat.log2]
    rfl
  | succ f ih =>
    intro n h
    by_cases h2 : 2 ≤ n
    · have hdiv : n / 2 ≤ f := by omega
      rw [Nat.log2]
      simp [log2fuel, h2, ih _ hdiv]
    · rw [Nat.log2]
      simp [log2fuel, h2]

/-- roundup_pow_of_two n (for n ≥ 1) is a power of two, is at least n, and
is the least such power: it justifies reading the modelled kernel macro as
"rounded up to the next power of two". -/
theorem roundup_pow_of_two_spec (n : Nat) (hn : 1 ≤ n) :
    (∃ k, roundup_pow_of_two n = 2 ^ k) ∧ n ≤ roundup_pow_of_two n ∧
      ∀ j, n ≤ 2 ^ j → roundup_pow_of_two n ≤ 2 ^ j := by
  by_cases h1 : n ≤ 1
  · have hn1 : n = 1 := le_antisymm h1 hn
    subst hn1
    refine ⟨⟨0, by simp [roundup_pow_of_two]⟩, by simp [roundup_pow_of_two], ?_⟩
    intro j _
    simpa [roundup_pow_of_two] using Nat.one_le_two_pow
  · have h2 : 2 ≤ n := by omega
    have hne : n - 1 ≠ 0 := by omega
    have hfl : log2fuel (n - 1) (n - 1) = Nat.log2 (n - 1) :=
      log2fuel_eq_log2 (n - 1) (n - 1) le_rfl
    refine ⟨⟨Nat.log2 (n - 1) + 1, by simp [roundup_pow_of_two, h1, hfl]⟩, ?_, ?_⟩
    · have := @Nat.lt_log2_self (n - 1)
      simp only [roundup_pow_of_two, if_neg h1, hfl]
      omega
    · intro j hj
      have hlt : n - 1 < 2 ^ j := by omega
      have hlog : (n - 1).log2 < j := (Nat.log2_lt hne).mpr hlt
      simp only [roundup_pow_of_two, if_neg h1, hfl]
      exact Nat.pow_le_pow_right (by omega) (by omega)

/-- Claim C6: store creation succeeds only when max_entries > 0, key_size
is 4, value_size is at least 8, a multiple of 8, and value_size / 8 is at
most the frame-depth ceiling; any violation fails with -EINVAL.  On
success the bucket count is max_entries rounded up to the next power of
two (least power of two ≥ max_entries), the bucket array is that long and
all-empty, and value_size is recorded.  An excessive memory footprint — at
either cost check — fails with -E2BIG (stackmap.c:38-61). -/
theorem stack_map_alloc_spec (hdr bucketHdr : Nat) (allocOk : Bool)
    (callchainErr : Option Int) (attr : bpf_attr) :
    (attr.max_entries = 0 ∨ attr.key_size ≠ 4 ∨ attr.value_size < 8 ∨
        attr.value_size % 8 ≠ 0 ∨ attr.value_size / 8 > PERF_MAX_STACK_DEPTH →
        stack_map_alloc true hdr bucketHdr allocOk callchainErr attr =
          .error (-EINVAL)) ∧
      (∀ m, stack_map_alloc true hdr bucketHdr allocOk callchainErr attr = .ok m →
        (1 ≤ attr.max_entries ∧ attr.key_size = 4 ∧ 8 ≤ attr.value_size ∧
            attr.value_size % 8 = 0 ∧
            attr.value_size / 8 ≤ PERF_MAX_STACK_DEPTH) ∧
          m.n_buckets = roundup_pow_of_two attr.max_entries ∧
          (∃ k, m.n_buckets = 2 ^ k) ∧ attr.max_entries ≤ m.n_buckets ∧
          (∀ j, attr.max_entries ≤ 2 ^ j → m.n_buckets ≤ 2 ^ j) ∧
          m.value_size = attr.value_size ∧
          m.buckets = List.replicate m.n_buckets none) ∧
      (¬ (attr.max_entries = 0 ∨ attr.key_size ≠ 4 ∨ attr.value_size < 8 ∨
            attr.value_size % 8 ≠ 0 ∨
            attr.value_size / 8 > PERF_MAX_STACK_DEPTH) →
        roundup_pow_of_two attr.max_entries * 8 + hdr ≥ U32_MAX - PAGE_SIZE →
        stack_map_alloc true hdr bucketHdr allocOk callchainErr attr =
          .error (-E2BIG)) ∧
      (¬ (attr.max_entries = 0 ∨ attr.key_size ≠ 4 ∨ attr.value_size < 8 ∨
            attr.value_size % 8 ≠ 0 ∨
            attr.value_size / 8 > PERF_MAX_STACK_DEPTH) →
        allocOk = true →
        roundup_pow_of_two attr.max_entries * 8 + hdr +
            roundup_pow_of_two attr.max_entries * (attr.value_size + bucketHdr) ≥
            U32_MAX - PAGE_SIZE →
        stack_map_alloc true hdr bucketHdr allocOk callchainErr attr =
          .error (-E2BIG)) := by
  refine ⟨fun hbad => ?_, fun m hm => ?_, fun hgood hcost => ?_,
    fun hgood halloc hcost => ?_⟩
  · simp [stack_map_alloc, hbad]
  · by_cases hbad : attr.max_entries = 0 ∨ attr.key_size ≠ 4 ∨
        attr.value_size < 8 ∨ attr.value_size % 8 ≠ 0 ∨
        attr.value_size / 8 > PERF_MAX_STACK_DEPTH
    · simp [stack_map_alloc, hbad] at hm
    · have hok := hm
      simp only [stack_map_alloc, if_neg (by simp : ¬ ¬ true = true), if_neg hbad] at hok
      push_neg at hbad
      obtain ⟨h0, h4, h8, hm8, hd⟩ := hbad
      split at hok
      · exact absurd hok (by simp)
      · split at hok
        · exact absurd hok (by simp)
        · split at hok
          · exact absurd hok (by simp)
          · split at hok
            · exact absurd hok (by simp)
            · split at hok
              · exact absurd hok (by simp)
              · obtain ⟨hpow, hle, hmin⟩ :=
                  roundup_pow_of_two_spec attr.max_entries (by omega)
                cases hok
                exact ⟨⟨by omega, h4, by omega, hm8, hd⟩, rfl, hpow, hle, hmin,
                  rfl, rfl⟩
  · simp [stack_map_alloc, hgood, hcost]
  · subst halloc
    by_cases hc1 : roundup_pow_of_two attr.max_entries * 8 + hdr ≥ U32_MAX - PAGE_SIZE
    · simp [stack_map_alloc, hgood, hc1]
    · simp [stack_map_alloc, hgood, hc1, hcost]

/-- Witness for claim C6: the invalid-argument failure (value_size 7), a
successful creation (max_entries 5 rounds up to 8 buckets), and the
size-limit failure (max_entries 2^29 makes the first cost check trip). -/
theorem stack_map_alloc_spec_witness :
    stack_map_alloc true 64 24 true none ⟨4, 7, 5⟩ = .error (-EINVAL) ∧
      stack_map_alloc true 64 24 true none ⟨4, 8, 5⟩ =
        .ok ⟨8, 8, List.replicate 8 none⟩ ∧
      stack_map_alloc true 64 24 true none ⟨4, 8, 536870912⟩ =
        .error (-E2BIG) :=
  ⟨(stack_map_alloc_spec 64 24 true none ⟨4, 7, 5⟩).1 (by decide),
    by decide,
    (stack_map_alloc_spec 64 24 true none ⟨4, 8, 536870912⟩).2.2.1 (by decide)
      (by decide)⟩

/-- On the non-error path of bpf_get_stackid, an empty target bucket gets
the newly captured trace: the returned value is the bucket index, a new
bucket is allocated holding the hash, the depth and the zero-padded frame
buffer, and nothing is freed (stackmap.c:131-148 with old NULL). -/
theorem stackid_insert_empty (hashFn : List Nat → Nat) (smap : bpf_stack_map)
    (flags : Nat) (tr ips : List Nat) (trace_nr hash id : Nat)
    (hips : ips = tr.drop (flags &&& BPF_F_SKIP_FIELD_MASK))
    (htn : trace_nr = tr.length - (flags &&& BPF_F_SKIP_FIELD_MASK))
    (hh : hash = hashFn ips % 2 ^ 32)
    (hid : id = hash &&& (smap.n_buckets - 1))
    (hmask : flags &&& (U64_ALL - stackidAllowedFlags) = 0)
    (hskip : flags &&& BPF_F_SKIP_FIELD_MASK < tr.length)
    (hb : smap.buckets.getD id none = none) :
    bpf_get_stackid hashFn true smap flags (some tr) =
      ⟨Int.ofNat id,
        ⟨smap.n_buckets, smap.value_size,
          smap.buckets.set id
            (some ⟨hash, trace_nr,
              ips ++ List.replicate (smap.value_size / 8 - trace_nr) 0⟩)⟩,
        true, none⟩ := by
  subst hips htn hh hid
  simp only [bpf_get_stackid, hmask, ne_eq, not_true_eq_false, if_false,
    Nat.not_le.mpr hskip, ite_false, hb]
  simp

/-- On the non-error path of bpf_get_stackid, a bucket whose stored hash,
depth and frame bytes all equal those of the captured trace is returned
as-is: no allocation, no free, map unchanged (stackmap.c:123-129). -/
theorem stackid_match_ret (hashFn : List Nat → Nat) (allocOk : Bool)
    (smap : bpf_stack_map) (flags : Nat) (tr ips : List Nat)
    (trace_nr hash id : Nat) (b : stack_map_bucket)
    (hips : ips = tr.drop (flags &&& BPF_F_SKIP_FIELD_MASK))
    (htn : trace_nr = tr.length - (flags &&& BPF_F_SKIP_FIELD_MASK))
    (hh : hash = hashFn ips % 2 ^ 32)
    (hid : id = hash &&& (smap.n_buckets - 1))
    (hmask : flags &&& (U64_ALL - stackidAllowedFlags) = 0)
    (hskip : flags &&& BPF_F_SKIP_FIELD_MASK < tr.length)
    (hb : smap.buckets.getD id none = some b)
    (hbh : b.hash = hash) (hbn : b.nr = trace_nr)
    (hbip : b.ip.take trace_nr = ips) :
    bpf_get_stackid hashFn allocOk smap flags (some tr) =
      ⟨Int.ofNat id, smap, false, none⟩ := by
  subst hips htn hh hid
  simp only [bpf_get_stackid, hmask, ne_eq, not_true_eq_false, if_false,
    Nat.not_le.mpr hskip, ite_false, hb]
  simp [hbh, hbn, hbip]

/-- With fast compare off, the stored-bucket comparison at
stackmap.c:123-128 comes out false whenever hash, depth or frame bytes
differ. -/
theorem stackid_matched_false (b : stack_map_bucket) (hv n : Nat)
    (ips : List Nat) (flags : Nat)
    (hfast : flags &&& BPF_F_FAST_STACK_CMP = 0)
    (hmis : ¬ (b.hash = hv ∧ b.nr = n ∧ b.ip.take n = ips)) :
    (b.hash == hv &&
      (flags &&& BPF_F_FAST_STACK_CMP != 0 ||
        (b.nr == n && b.ip.take n == ips))) = false := by
  simp only [hfast, bne_self_eq_false, Bool.false_or, Bool.and_eq_false_iff]
  by_cases h1 : b.hash = hv
  · by_cases h2 : b.nr = n
    · refine Or.inr (Or.inr ?_)
      simp only [beq_eq_false_iff_ne, ne_eq]
      exact fun hc => hmis ⟨h1, h2, hc⟩
    · exact Or.inr (Or.inl (by simpa using h2))
  · exact Or.inl (by simpa using h1)

/-- On the non-error path of bpf_get_stackid with fast compare off and
reuse off, an occupied bucket that does not match the captured trace makes
the call fail with -EEXIST, leaving the map untouched
(stackmap.c:132-133). -/
theorem stackid_conflict_eexist (hashFn : List Nat → Nat) (allocOk : Bool)
    (smap : bpf_stack_map) (flags : Nat) (tr ips : List Nat)
    (trace_nr hash id : Nat) (b : stack_map_bucket)
    (hips : ips = tr.drop (flags &&& BPF_F_SKIP_FIELD_MASK))
    (htn : trace_nr = tr.length - (flags &&& BPF_F_SKIP_FIELD_MASK))
    (hh : hash = hashFn ips % 2 ^ 32)
    (hid : id = hash &&& (smap.n_buckets - 1))
    (hmask : flags &&& (U64_ALL - stackidAllowedFlags) = 0)
    (hfast : flags &&& BPF_F_FAST_STACK_CMP = 0)
    (hreuse : flags &&& BPF_F_REUSE_STACKID = 0)
    (hskip : flags &&& BPF_F_SKIP_FIELD_MASK < tr.length)
    (hb : smap.buckets.getD id none = some b)
    (hmis : ¬ (b.hash = hash ∧ b.nr = trace_nr ∧ b.ip.take trace_nr = ips)) :
    bpf_get_stackid hashFn allocOk smap flags (some tr) =
      ⟨-EEXIST, smap, false, none⟩ := by
  subst hips htn hh hid
  have hmf := stackid_matched_false b
    (hashFn (tr.drop (flags &&& BPF_F_SKIP_FIELD_MASK)) % 2 ^ 32)
    (tr.length - (flags &&& BPF_F_SKIP_FIELD_MASK))
    (tr.drop (flags &&& BPF_F_SKIP_FIELD_MASK)) flags hfast hmis
  simp only [bpf_get_stackid, hmask, ne_eq, not_true_eq_false, if_false,
    Nat.not_le.mpr hskip, ite_false, hb, hmf, hreuse]
  simp

/-- On the non-error path of bpf_get_stackid with fast compare off and
reuse on, an occupied non-matching bucket is replaced: a new bucket with
the captured trace is swapped in, the old bucket goes to deferred
destruction, and the bucket index is returned (stackmap.c:135-148). -/
theorem stackid_reuse_replace (hashFn : List Nat → Nat)
    (smap : bpf_stack_map) (flags : Nat) (tr ips : List Nat)
    (trace_nr hash id : Nat) (b : stack_map_bucket)
    (hips : ips = tr.drop (flags &&& BPF_F_SKIP_FIELD_MASK))
    (htn : trace_nr = tr.length - (flags &&& BPF_F_SKIP_FIELD_MASK))
    (hh : hash = hashFn ips % 2 ^ 32)
    (hid : id = hash &&& (smap.n_buckets - 1))
    (hmask : flags &&& (U64_ALL - stackidAllowedFlags) = 0)
    (hfast : flags &&& BPF_F_FAST_STACK_CMP = 0)
    (hreuse : flags &&& BPF_F_REUSE_STACKID ≠ 0)
    (hskip : flags &&& BPF_F_SKIP_FIELD_MASK < tr.length)
    (hb : smap.buckets.getD id none = some b)
    (hmis : ¬ (b.hash = hash ∧ b.nr = trace_nr ∧ b.ip.take trace_nr = ips)) :
    bpf_get_stackid hashFn true smap flags (some tr) =
      ⟨Int.ofNat id,
        ⟨smap.n_buckets, smap.value_size,
          smap.buckets.set id
            (some ⟨hash, trace_nr,
              ips ++ List.replicate (smap.value_size / 8 - trace_nr) 0⟩)⟩,
        true, some b⟩ := by
  subst hips htn hh hid
  have hmf := stackid_matched_false b
    (hashFn (tr.drop (flags &&& BPF_F_SKIP_FIELD_MASK)) % 2 ^ 32)
    (tr.length - (flags &&& BPF_F_SKIP_FIELD_MASK))
    (tr.drop (flags &&& BPF_F_SKIP_FIELD_MASK)) flags hfast hmis
  simp only [bpf_get_stackid, hmask, ne_eq, not_true_eq_false, if_false,
    Nat.not_le.mpr hskip, ite_false, hb, hmf, hreuse]
  simp [hreuse]

/-- Taking back exactly the first block of an append returns that block. -/
theorem take_append_of_length (l l2 : List Nat) (n : Nat) (h : l.length = n) :
    (l ++ l2).take n = l := by
  subst h
  exact List.take_left l l2

/-- Claim C1: with fast compare off and reuse off, capturing the same
byte-identical trace twice returns the same bucket index both times; the
second call allocates no new bucket and leaves the map — hence the stored
entry — unchanged.  The hypothesis 0 ≤ ret says the first call succeeded
(the bucket was free or already held this exact trace). -/
theorem bpf_get_stackid_dedup (hashFn : List Nat → Nat) (smap : bpf_stack_map)
    (flags : Nat) (tr : List Nat)
    (hWF : smap.WF)
    (hmask : flags &&& (U64_ALL - stackidAllowedFlags) = 0)
    (hfast : flags &&& BPF_F_FAST_STACK_CMP = 0)
    (hreuse : flags &&& BPF_F_REUSE_STACKID = 0)
    (hskip : flags &&& BPF_F_SKIP_FIELD_MASK < tr.length)
    (hok : 0 ≤ (bpf_get_stackid hashFn true smap flags (some tr)).ret) :
    (bpf_get_stackid hashFn true
        (bpf_get_stackid hashFn true smap flags (some tr)).smap flags
        (some tr)).ret =
      (bpf_get_stackid hashFn true smap flags (some tr)).ret ∧
      (bpf_get_stackid hashFn true
          (bpf_get_stackid hashFn true smap flags (some tr)).smap flags
          (some tr)).smap =
        (bpf_get_stackid hashFn true smap flags (some tr)).smap ∧
      (bpf_get_stackid hashFn true
          (bpf_get_stackid hashFn true smap flags (some tr)).smap flags
          (some tr)).allocated = false := by
  have hlen := hWF.1
  obtain ⟨k, hk⟩ := hWF.2
  have hips_len : (tr.drop (flags &&& BPF_F_SKIP_FIELD_MASK)).length =
      tr.length - (flags &&& BPF_F_SKIP_FIELD_MASK) := List.length_drop _ _
  have hidlt : hashFn (tr.drop (flags &&& BPF_F_SKIP_FIELD_MASK)) % 2 ^ 32 &&&
      (smap.n_buckets - 1) < smap.n_buckets := by
    rw [hk, Nat.and_pow_two_sub_one_eq_mod]
    exact Nat.mod_lt _ (Nat.pos_pow_of_pos k (by norm_num))
  cases hcase : smap.buckets.getD
      (hashFn (tr.drop (flags &&& BPF_F_SKIP_FIELD_MASK)) % 2 ^ 32 &&&
        (smap.n_buckets - 1)) none with
  | none =>
    have h1 := stackid_insert_empty hashFn smap flags tr
      (tr.drop (flags &&& BPF_F_SKIP_FIELD_MASK))
      (tr.length - (flags &&& BPF_F_SKIP_FIELD_MASK))
      (hashFn (tr.drop (flags &&& BPF_F_SKIP_FIELD_MASK)) % 2 ^ 32)
      (hashFn (tr.drop (flags &&& BPF_F_SKIP_FIELD_MASK)) % 2 ^ 32 &&&
        (smap.n_buckets - 1))
      rfl rfl rfl rfl hmask hskip hcase
    have hgd : (⟨smap.n_buckets, smap.value_size,
        smap.buckets.set
          (hashFn (tr.drop (flags &&& BPF_F_SKIP_FIELD_MASK)) % 2 ^ 32 &&&
            (smap.n_buckets - 1))
          (some ⟨hashFn (tr.drop (flags &&& BPF_F_SKIP_FIELD_MASK)) % 2 ^ 32,
            tr.length - (flags &&& BPF_F_SKIP_FIELD_MASK),
            tr.drop (flags &&& BPF_F_SKIP_FIELD_MASK) ++
              List.replicate (smap.value_size / 8 -
                (tr.length - (flags &&& BPF_F_SKIP_FIELD_MASK))) 0⟩)⟩ :
        bpf_stack_map).buckets.getD
        (hashFn (tr.drop (flags &&& BPF_F_SKIP_FIELD_MASK)) % 2 ^ 32 &&&
          (smap.n_buckets - 1)) none =
        some ⟨hashFn (tr.drop (flags &&& BPF_F_SKIP_FIELD_MASK)) % 2 ^ 32,
          tr.length - (flags &&& BPF_F_SKIP_FIELD_MASK),
          tr.drop (flags &&& BPF_F_SKIP_FIELD_MASK) ++
            List.replicate (smap.value_size / 8 -
              (tr.length - (flags &&& BPF_F_SKIP_FIELD_MASK))) 0⟩ := by
      dsimp only
      rw [List.getD_eq_getElem?_getD,
        List.getElem?_set_self (by rw [hlen]; exact hidlt)]
      rfl
    have h2 := stackid_match_ret hashFn true
      (⟨smap.n_buckets, smap.value_size,
        smap.buckets.set
          (hashFn (tr.drop (flags &&& BPF_F_SKIP_FIELD_MASK)) % 2 ^ 32 &&&
            (smap.n_buckets - 1))
          (some ⟨hashFn (tr.drop (flags &&& BPF_F_SKIP_FIELD_MASK)) % 2 ^ 32,
            tr.length - (flags &&& BPF_F_SKIP_FIELD_MASK),
            tr.drop (flags &&& BPF_F_SKIP_FIELD_MASK) ++
              List.replicate (smap.value_size / 8 -
                (tr.length - (flags &&& BPF_F_SKIP_FIELD_MASK))) 0⟩)⟩ :
        bpf_stack_map)
      flags tr
      (tr.drop (flags &&& BPF_F_SKIP_FIELD_MASK))
      (tr.length - (flags &&& BPF_F_SKIP_FIELD_MASK))
      (hashFn (tr.drop (flags &&& BPF_F_SKIP_FIELD_MASK)) % 2 ^ 32)
      (hashFn (tr.drop (flags &&& BPF_F_SKIP_FIELD_MASK)) % 2 ^ 32 &&&
        (smap.n_buckets - 1))
      ⟨hashFn (tr.drop (flags &&& BPF_F_SKIP_FIELD_MASK)) % 2 ^ 32,
        tr.length - (flags &&& BPF_F_SKIP_FIELD_MASK),
        tr.drop (flags &&& BPF_F_SKIP_FIELD_MASK) ++
          List.replicate (smap.value_size / 8 -
            (tr.length - (flags &&& BPF_F_SKIP_FIELD_MASK))) 0⟩
      rfl rfl rfl rfl hmask hskip hgd rfl rfl
      (take_append_of_length _ _ _ hips_len)
    rw [h1]
    dsimp only
    rw [h2]
    exact ⟨rfl, rfl, rfl⟩
  | some b =>
    by_cases hmatch : b.hash =
        hashFn (tr.drop (flags &&& BPF_F_SKIP_FIELD_MASK)) % 2 ^ 32 ∧
        b.nr = tr.length - (flags &&& BPF_F_SKIP_FIELD_MASK) ∧
        b.ip.take (tr.length - (flags &&& BPF_F_SKIP_FIELD_MASK)) =
          tr.drop (flags &&& BPF_F_SKIP_FIELD_MASK)
    · have h1 := stackid_match_ret hashFn true smap flags tr
        (tr.drop (flags &&& BPF_F_SKIP_FIELD_MASK))
        (tr.length - (flags &&& BPF_F_SKIP_FIELD_MASK))
        (hashFn (tr.drop (flags &&& BPF_F_SKIP_FIELD_MASK)) % 2 ^ 32)
        (hashFn (tr.drop (flags &&& BPF_F_SKIP_FIELD_MASK)) % 2 ^ 32 &&&
          (smap.n_buckets - 1)) b
        rfl rfl rfl rfl hmask hskip hcase hmatch.1 hmatch.2.1 hmatch.2.2
      rw [h1]
      dsimp only
      rw [h1]
      exact ⟨rfl, rfl, rfl⟩
    · exfalso
      have h1 := stackid_conflict_eexist hashFn true smap flags tr
        (tr.drop (flags &&& BPF_F_SKIP_FIELD_MASK))
        (tr.length - (flags &&& BPF_F_SKIP_FIELD_MASK))
        (hashFn (tr.drop (flags &&& BPF_F_SKIP_FIELD_MASK)) % 2 ^ 32)
        (hashFn (tr.drop (flags &&& BPF_F_SKIP_FIELD_MASK)) % 2 ^ 32 &&&
          (smap.n_buckets - 1)) b
        rfl rfl rfl rfl hmask hfast hreuse hskip hcase hmatch
      rw [h1] at hok
      norm_num [EEXIST] at hok

/-- Claim C2: when the captured trace does not match the occupant of its
bucket (different hash, or same hash but different depth or bytes, with
fast compare off), the insert without reuse fails with -EEXIST and leaves
the bucket unchanged; with reuse it succeeds, returns the bucket index,
swaps in a bucket holding exactly the new trace (zero-padded), hands the
old occupant to deferred destruction, and a subsequent lookup of that
index returns exactly the new trace's padded bytes — no mix of old and
new. -/
theorem bpf_get_stackid_collision (hashFn : List Nat → Nat) (allocOk : Bool)
    (smap : bpf_stack_map) (flags1 flags2 : Nat) (tr : List Nat)
    (b : stack_map_bucket)
    (hWF : smap.WF)
    (hm1 : flags1 &&& (U64_ALL - stackidAllowedFlags) = 0)
    (hf1 : flags1 &&& BPF_F_FAST_STACK_CMP = 0)
    (hr1 : flags1 &&& BPF_F_REUSE_STACKID = 0)
    (hm2 : flags2 &&& (U64_ALL - stackidAllowedFlags) = 0)
    (hf2 : flags2 &&& BPF_F_FAST_STACK_CMP = 0)
    (hr2 : flags2 &&& BPF_F_REUSE_STACKID ≠ 0)
    (hs : flags2 &&& BPF_F_SKIP_FIELD_MASK = flags1 &&& BPF_F_SKIP_FIELD_MASK)
    (hskip : flags1 &&& BPF_F_SKIP_FIELD_MASK < tr.length)
    (hb : smap.buckets.getD
      (hashFn (tr.drop (flags1 &&& BPF_F_SKIP_FIELD_MASK)) % 2 ^ 32 &&&
        (smap.n_buckets - 1)) none = some b)
    (hmis : ¬ (b.hash =
        hashFn (tr.drop (flags1 &&& BPF_F_SKIP_FIELD_MASK)) % 2 ^ 32 ∧
        b.nr = tr.length - (flags1 &&& BPF_F_SKIP_FIELD_MASK) ∧
        b.ip.take (tr.length - (flags1 &&& BPF_F_SKIP_FIELD_MASK)) =
          tr.drop (flags1 &&& BPF_F_SKIP_FIELD_MASK))) :
    bpf_get_stackid hashFn allocOk smap flags1 (some tr) =
      ⟨-EEXIST, smap, false, none⟩ ∧
      bpf_get_stackid hashFn true smap flags2 (some tr) =
        ⟨Int.ofNat (hashFn (tr.drop (flags1 &&& BPF_F_SKIP_FIELD_MASK)) % 2 ^ 32 &&&
            (smap.n_buckets - 1)),
          ⟨smap.n_buckets, smap.value_size,
            smap.buckets.set
              (hashFn (tr.drop (flags1 &&& BPF_F_SKIP_FIELD_MASK)) % 2 ^ 32 &&&
                (smap.n_buckets - 1))
              (some ⟨hashFn (tr.drop (flags1 &&& BPF_F_SKIP_FIELD_MASK)) % 2 ^ 32,
                tr.length - (flags1 &&& BPF_F_SKIP_FIELD_MASK),
                tr.drop (flags1 &&& BPF_F_SKIP_FIELD_MASK) ++
                  List.replicate (smap.value_size / 8 -
                    (tr.length - (flags1 &&& BPF_F_SKIP_FIELD_MASK))) 0⟩)⟩,
          true, some b⟩ ∧
      stack_map_lookup_elem
          (bpf_get_stackid hashFn true smap flags2 (some tr)).smap
          (hashFn (tr.drop (flags1 &&& BPF_F_SKIP_FIELD_MASK)) % 2 ^ 32 &&&
            (smap.n_buckets - 1)) =
        some (tr.drop (flags1 &&& BPF_F_SKIP_FIELD_MASK) ++
          List.replicate (smap.value_size / 8 -
            (tr.length - (flags1 &&& BPF_F_SKIP_FIELD_MASK))) 0) := by
  have hlen := hWF.1
  obtain ⟨k, hk⟩ := hWF.2
  have hidlt : hashFn (tr.drop (flags1 &&& BPF_F_SKIP_FIELD_MASK)) % 2 ^ 32 &&&
      (smap.n_buckets - 1) < smap.n_buckets := by
    rw [hk, Nat.and_pow_two_sub_one_eq_mod]
    exact Nat.mod_lt _ (Nat.pos_pow_of_pos k (by norm_num))
  have h1 := stackid_conflict_eexist hashFn allocOk smap flags1 tr
    (tr.drop (flags1 &&& BPF_F_SKIP_FIELD_MASK))
    (tr.length - (flags1 &&& BPF_F_SKIP_FIELD_MASK))
    (hashFn (tr.drop (flags1 &&& BPF_F_SKIP_FIELD_MASK)) % 2 ^ 32)
    (hashFn (tr.drop (flags1 &&& BPF_F_SKIP_FIELD_MASK)) % 2 ^ 32 &&&
      (smap.n_buckets - 1)) b
    rfl rfl rfl rfl hm1 hf1 hr1 hskip hb hmis
  have h2 := stackid_reuse_replace hashFn smap flags2 tr
    (tr.drop (flags1 &&& BPF_F_SKIP_FIELD_MASK))
    (tr.length - (flags1 &&& BPF_F_SKIP_FIELD_MASK))
    (hashFn (tr.drop (flags1 &&& BPF_F_SKIP_FIELD_MASK)) % 2 ^ 32)
    (hashFn (tr.drop (flags1 &&& BPF_F_SKIP_FIELD_MASK)) % 2 ^ 32 &&&
      (smap.n_buckets - 1)) b
    (by rw [hs]) (by rw [hs]) rfl rfl hm2 hf2 hr2 (by rw [hs]; exact hskip)
    hb hmis
  refine ⟨h1, h2, ?_⟩
  rw [h2]
  dsimp only
  simp only [stack_map_lookup_elem]
  rw [if_neg (Nat.not_le.mpr hidlt)]
  rw [List.getD_eq_getElem?_getD,
    List.getElem?_set_self (by rw [hlen]; exact hidlt)]
  rfl

/-- Witness for claim C1: on the empty four-bucket map, inserting the trace
[9] twice (flags 0, constant-zero hash) returns index 0 both times, with no
allocation and no change on the second call. -/
theorem bpf_get_stackid_dedup_witness :
    (bpf_get_stackid hashZero true
        (bpf_get_stackid hashZero true cexMap4 0 (some [9])).smap 0
        (some [9])).ret =
      (bpf_get_stackid hashZero true cexMap4 0 (some [9])).ret ∧
      (bpf_get_stackid hashZero true
          (bpf_get_stackid hashZero true cexMap4 0 (some [9])).smap 0
          (some [9])).smap =
        (bpf_get_stackid hashZero true cexMap4 0 (some [9])).smap ∧
      (bpf_get_stackid hashZero true
          (bpf_get_stackid hashZero true cexMap4 0 (some [9])).smap 0
          (some [9])).allocated = false :=
  bpf_get_stackid_dedup hashZero cexMap4 0 [9] ⟨by decide, 2, by decide⟩
    (by decide) (by decide) (by decide) (by decide) (by decide)

/-- Witness for claim C2: the single-bucket map holds the trace [7]; the
non-matching trace [9] hashes (constant-zero hash) to the same bucket 0.
Without reuse the insert fails with -EEXIST and changes nothing; with
reuse (flags 1024) it returns index 0, stores [9, 0], frees the old
bucket, and lookup of index 0 yields [9, 0]. -/
theorem bpf_get_stackid_collision_witness :
    bpf_get_stackid hashZero true cexMap1 0 (some [9]) =
      ⟨-EEXIST, cexMap1, false, none⟩ ∧
      bpf_get_stackid hashZero true cexMap1 1024 (some [9]) =
        ⟨Int.ofNat 0, ⟨1, 16, [some ⟨0, 1, [9, 0]⟩]⟩, true,
          some ⟨0, 1, [7, 0]⟩⟩ ∧
      stack_map_lookup_elem
          (bpf_get_stackid hashZero true cexMap1 1024 (some [9])).smap 0 =
        some [9, 0] := by
  have h := bpf_get_stackid_collision hashZero true cexMap1 0 1024 [9]
    ⟨0, 1, [7, 0]⟩ ⟨by decide, 0, by decide⟩ (by decide) (by decide)
    (by decide) (by decide) (by decide) (by decide) (by decide) (by decide)
    (by decide) (by decide)
  exact h

/-- Under the all-faulting reader every string read yields the empty
buffer. -/
theorem readBuf_rsFail_eq (a : printkArg) : readBuf rsFail a = [] := by
  cases a <;> rfl

/-- The string buffer filled for a %s argument always fits the 64-byte
local buffer (63 content bytes at most). -/
theorem readBuf_length_lt (rs : Nat → Option (List Nat)) (a : printkArg) :
    (readBuf rs a).length < printkBufSize := by
  cases a with
  | num v =>
    cases h : rs v with
    | none => simp [readBuf, h, printkBufSize]
    | some s =>
      simp only [readBuf, h, List.length_take, printkBufSize]
      omega
  | str s => simp [readBuf, printkBufSize]

/-- The format-scanning loop run under any reader and under the
all-faulting reader: the control flow is identical (same -EINVAL failures,
same widths), and pointwise-related argument slots stay related — a %s
slot becomes the bounded buffer on one side and the empty string on the
other. -/
theorem printkLoop_rel (rs : Nat → Option (List Nat)) :
    ∀ (n : Nat) (rest : List Nat), rest.length ≤ n →
      ∀ (cnt : Nat) (seen : Bool) (m0 m1 m2 : Nat)
        (a0 a1 a2 b0 b1 b2 : printkArg),
        printkArgRelB a0 b0 = true → printkArgRelB a1 b1 = true →
        printkArgRelB a2 b2 = true →
        printkOutRelB (printkLoop rs rest cnt seen m0 m1 m2 a0 a1 a2)
          (printkLoop rsFail rest cnt seen m0 m1 m2 b0 b1 b2) = true := by
  have hstr : ∀ (x y : printkArg),
      printkArgRelB (.str (readBuf rs x)) (.str (readBuf rsFail y)) = true := by
    intro x y
    simp [printkArgRelB, readBuf_rsFail_eq, readBuf_length_lt rs x]
  intro n
  induction n with
  | zero =>
    intro rest hl cnt seen m0 m1 m2 a0 a1 a2 b0 b1 b2 h0 h1 h2
    rcases rest with _ | ⟨c, rest1⟩
    · simp [printkLoop, printkOutRelB, h0, h1, h2]
    · simp at hl
  | succ n ih =>
    intro rest hl cnt seen m0 m1 m2 a0 a1 a2 b0 b1 b2 h0 h1 h2
    rcases rest with _ | ⟨c, rest1⟩
    · simp [printkLoop, printkOutRelB, h0, h1, h2]
    rcases rest1 with _ | ⟨c1, rest2⟩
    · simp [printkLoop, printkOutRelB, h0, h1, h2]
    have hlen2 : rest2.length + 2 ≤ n + 1 := by simpa using hl
    have eA := printkLoop.eq_def rs (c :: c1 :: rest2) cnt seen m0 m1 m2 a0 a1 a2
    have eB := printkLoop.eq_def rsFail (c :: c1 :: rest2) cnt seen m0 m1 m2 b0 b1 b2
    rw [eA, eB]
    dsimp only
    by_cases hbad : ¬ ((isprintB c || isspaceB c) && isasciiB c) = true
    · simp only [if_pos hbad]
      rfl
    simp only [if_neg hbad]
    by_cases hc37 : c ≠ 37
    · simp only [if_pos hc37]
      exact ih (c1 :: rest2) (by simp only [List.length_cons]; omega)
        cnt seen m0 m1 m2 a0 a1 a2 b0 b1 b2 h0 h1 h2
    simp only [if_neg hc37]
    by_cases hcnt : cnt ≥ 3
    · simp only [if_pos hcnt]
      rfl
    simp only [if_neg hcnt]
    by_cases hL : c1 = 108
    · simp only [if_pos hL]
      rcases rest2 with _ | ⟨c2, rest3⟩
      · rfl
      dsimp only
      by_cases hL2 : c2 = 108
      · simp only [if_pos hL2]
        rcases rest3 with _ | ⟨c3, rest4⟩
        · rfl
        dsimp only
        by_cases hdux : c3 = 100 ∨ c3 = 117 ∨ c3 = 120
        · simp only [if_pos hdux]
          rcases cnt with _ | _ | k
          · exact ih rest4 (by simp only [List.length_cons] at hlen2; omega)
              1 seen (m0 + 2) m1 m2 a0 a1 a2 b0 b1 b2 h0 h1 h2
          · exact ih rest4 (by simp only [List.length_cons] at hlen2; omega)
              2 seen m0 (m1 + 2) m2 a0 a1 a2 b0 b1 b2 h0 h1 h2
          · exact ih rest4 (by simp only [List.length_cons] at hlen2; omega)
              3 seen m0 m1 (m2 + 2) a0 a1 a2 b0 b1 b2 h0 h1 h2
        · simp only [if_neg hdux]
          rfl
      · simp only [if_neg hL2]
        by_cases hdux2 : c2 = 100 ∨ c2 = 117 ∨ c2 = 120
        · simp only [if_pos hdux2]
          rcases cnt with _ | _ | k
          · exact ih rest3 (by simp only [List.length_cons] at hlen2; omega)
              1 seen (m0 + 1) m1 m2 a0 a1 a2 b0 b1 b2 h0 h1 h2
          · exact ih rest3 (by simp only [List.length_cons] at hlen2; omega)
              2 seen m0 (m1 + 1) m2 a0 a1 a2 b0 b1 b2 h0 h1 h2
          · exact ih rest3 (by simp only [List.length_cons] at hlen2; omega)
              3 seen m0 m1 (m2 + 1) a0 a1 a2 b0 b1 b2 h0 h1 h2
        · simp only [if_neg hdux2]
          rfl
    simp only [if_neg hL]
    by_cases hps : c1 = 112 ∨ c1 = 115
    · simp only [if_pos hps]
      by_cases htr : rest2.headD 0 ≠ 0 ∧ ¬ isspaceB (rest2.headD 0) ∧
          ¬ ispunctB (rest2.headD 0)
      · simp only [if_pos htr]
        rfl
      simp only [if_neg htr]
      by_cases hS : c1 = 115
      · simp only [if_pos hS]
        by_cases hseen : seen = true
        · simp only [if_pos hseen]
          rfl
        simp only [if_neg hseen]
        rcases cnt with _ | _ | k
        · exact ih rest2 (by omega) 1 true (m0 + 1) m1 m2
            (.str (readBuf rs a0)) a1 a2 (.str (readBuf rsFail b0)) b1 b2
            (hstr a0 b0) h1 h2
        · exact ih rest2 (by omega) 2 true m0 (m1 + 1) m2
            a0 (.str (readBuf rs a1)) a2 b0 (.str (readBuf rsFail b1)) b2
            h0 (hstr a1 b1) h2
        · exact ih rest2 (by omega) 3 true m0 m1 (m2 + 1)
            a0 a1 (.str (readBuf rs a2)) b0 b1 (.str (readBuf rsFail b2))
            h0 h1 (hstr a2 b2)
      · simp only [if_neg hS]
        rcases cnt with _ | _ | k
        · exact ih rest2 (by omega) 1 seen (m0 + 1) m1 m2
            a0 a1 a2 b0 b1 b2 h0 h1 h2
        · exact ih rest2 (by omega) 2 seen m0 (m1 + 1) m2
            a0 a1 a2 b0 b1 b2 h0 h1 h2
        · exact ih rest2 (by omega) 3 seen m0 m1 (m2 + 1)
            a0 a1 a2 b0 b1 b2 h0 h1 h2
    simp only [if_neg hps]
    by_cases hdux3 : c1 = 100 ∨ c1 = 117 ∨ c1 = 120
    · simp only [if_pos hdux3]
      rcases cnt with _ | _ | k
      · exact ih rest2 (by omega) 1 seen m0 m1 m2 a0 a1 a2 b0 b1 b2 h0 h1 h2
      · exact ih rest2 (by omega) 2 seen m0 m1 m2 a0 a1 a2 b0 b1 b2 h0 h1 h2
      · exact ih rest2 (by omega) 3 seen m0 m1 m2 a0 a1 a2 b0 b1 b2 h0 h1 h2
    · simp only [if_neg hdux3]
      rfl

/-- The final width adjustment preserves the reader relation slotwise. -/
theorem truncArg_rel (m : Nat) (a b : printkArg)
    (h : printkArgRelB a b = true) :
    printkArgRelB (truncArg m a) (truncArg m b) = true := by
  cases a with
  | num v =>
    cases b with
    | num w =>
      simp only [printkArgRelB, beq_iff_eq] at h
      subst h
      simp only [truncArg]
      split_ifs <;> simp [printkArgRelB]
    | str t => simp [printkArgRelB] at h
  | str s =>
    cases b with
    | num w => simp [printkArgRelB] at h
    | str t => simpa [truncArg, printkArgRelB] using h

/-- Claim C7: whenever bpf_trace_printk succeeds under any reader — i.e.
the format is valid — the same call under the all-faulting reader (every
%s address unreadable) still succeeds instead of returning a fault, the
numeric arguments are rendered identically, and every string argument is
rendered as the empty string; moreover the string rendered under the
original reader fits the fixed 64-byte local buffer (printkArgRelB states
both facts for each slot holding a %s buffer). -/
theorem bpf_trace_printk_str_fault (rs : Nat → Option (List Nat))
    (fmt : List Nat) (r3 r4 r5 : Nat) (a b c : printkArg)
    (h : bpf_trace_printk rs fmt r3 r4 r5 = .ok (a, b, c)) :
    ∃ a0 b0 c0, bpf_trace_printk rsFail fmt r3 r4 r5 = .ok (a0, b0, c0) ∧
      printkArgRelB a a0 = true ∧ printkArgRelB b b0 = true ∧
      printkArgRelB c c0 = true := by
  unfold bpf_trace_printk at h ⊢
  by_cases hterm : fmt.getLastD 1 ≠ 0
  · rw [if_pos hterm] at h
    simp at h
  rw [if_neg hterm] at h ⊢
  have hrel := printkLoop_rel rs fmt.length fmt le_rfl 0 false 0 0 0
    (.num r3) (.num r4) (.num r5) (.num r3) (.num r4) (.num r5)
    (by simp [printkArgRelB]) (by simp [printkArgRelB])
    (by simp [printkArgRelB])
  cases hA : printkLoop rs fmt 0 false 0 0 0 (.num r3) (.num r4) (.num r5) with
  | error e =>
    rw [hA] at h
    simp at h
  | ok out =>
    obtain ⟨m0, m1, m2, x0, x1, x2⟩ := out
    rw [hA] at h hrel
    revert hrel
    cases hB : printkLoop rsFail fmt 0 false 0 0 0
        (.num r3) (.num r4) (.num r5) with
    | error e2 =>
      intro hrel
      simp [printkOutRelB] at hrel
    | ok out2 =>
      intro hrel
      obtain ⟨n0, n1, n2, y0, y1, y2⟩ := out2
      simp only [printkOutRelB, Bool.and_eq_true, beq_iff_eq] at hrel
      obtain ⟨⟨⟨⟨⟨hm0, hm1⟩, hm2⟩, hx0⟩, hx1⟩, hx2⟩ := hrel
      simp only [Except.ok.injEq, Prod.mk.injEq] at h
      obtain ⟨ha, hb, hc⟩ := h
      refine ⟨truncArg n0 y0, truncArg n1 y1, truncArg n2 y2, rfl, ?_, ?_, ?_⟩
      · rw [← ha, ← hm0]
        exact truncArg_rel m0 x0 y0 hx0
      · rw [← hb, ← hm1]
        exact truncArg_rel m1 x1 y1 hx1
      · rw [← hc, ← hm2]
        exact truncArg_rel m2 x2 y2 hx2

/-- Witness for claim C7: the format "%s" with the string "hi" readable at
address 5 renders it; under the all-faulting reader the call still
succeeds and renders the empty string. -/
theorem bpf_trace_printk_str_fault_witness :
    ∃ a0 b0 c0, bpf_trace_printk rsFail fmtPctS 5 0 0 = .ok (a0, b0, c0) ∧
      printkArgRelB (.str [104, 105]) a0 = true ∧
      printkArgRelB (.num 0) b0 = true ∧ printkArgRelB (.num 0) c0 = true :=
  bpf_trace_printk_str_fault rsHiAt5 fmtPctS 5 0 0 (.str [104, 105]) (.num 0)
    (.num 0) (by decide)
